import Mathlib

/-!
NSX-T provider adapters: the NS group data source, the DHCP relay profile
resource and the SpoofGuard switching profile resource.

A shallow embedding of the three Go source files

* `nsxt/data_source_nsxt_ns_group.go`
* `nsxt/resource_nsxt_dhcp_relay_profile.go`
* `nsxt/resource_nsxt_spoofguard_switching_profile.go`

Every Go function `f(d, m) error` that mutates the resource data `d` and talks
to the controller through the client `m` becomes a Lean function returning an
`Outcome`: the returned error (`none` is Go's `nil`), the resource data after
the call and the list of events (remote calls and log lines) in program order.
A Go `error` is represented by its message.
-/

set_option autoImplicit false
set_option linter.dupNamespace false

namespace Nsxt

/-! ## Constants of `net/http` -/

/-- Go `http.StatusCreated`. -/
def StatusCreated : Nat := 201

/-- Go `http.StatusNotFound`. -/
def StatusNotFound : Nat := 404

/-! ## Data model -/

/-- A `common.Tag` of the client library. -/
structure Tag where
  Scope : String := ""
  Tag : String := ""
  deriving DecidableEq, Repr

/-- The fields of `manager.NsGroup` the data source touches. -/
structure NsGroup where
  Id : String := ""
  DisplayName : String := ""
  Description : String := ""
  deriving DecidableEq, Repr

/-- The `manager.NsGroupListResult` returned by `ListNSGroups`. -/
structure NsGroupListResult where
  Results : List NsGroup := []
  deriving DecidableEq, Repr

/-- The `manager.DhcpRelayProfile` payload; a field left out of a Go struct
literal has its zero value, which is the default here. -/
structure DhcpRelayProfile where
  Id : String := ""
  Revision : Int := 0
  Description : String := ""
  DisplayName : String := ""
  Tags : List Tag := []
  ServerAddresses : List String := []
  deriving DecidableEq, Repr

/-- The `manager.SpoofGuardSwitchingProfile` payload, zero values as defaults. -/
structure SpoofGuardSwitchingProfile where
  Id : String := ""
  Revision : Int := 0
  Description : String := ""
  DisplayName : String := ""
  Tags : List Tag := []
  WhiteListProviders : List String := []
  deriving DecidableEq, Repr

/-- The part of `*http.Response` that the adapters inspect. -/
structure Response where
  StatusCode : Nat
  deriving DecidableEq, Repr

/-- A Go `error` value: `none` is `nil`, `some msg` an error whose `Error()` is `msg`. -/
abbrev GoError := Option String

/-- How `fmt` renders an `error` under the verb `%v`. -/
def fmtV (err : GoError) : String :=
  match err with
  | none => "<nil>"
  | some e => e

/-- The `schema.ResourceData` of the NS group data source. -/
structure NsGroupData where
  id : String
  display_name : String
  description : String
  deriving DecidableEq, Repr

/-- The `schema.ResourceData` of the DHCP relay profile resource. The revision is
`none` while it has never been set. -/
structure DhcpRelayData where
  id : String
  revision : Option Int
  description : String
  display_name : String
  tag : List Tag
  server_addresses : List String
  deriving DecidableEq, Repr

/-- The `schema.ResourceData` of the SpoofGuard switching profile resource. -/
structure SpoofGuardData where
  id : String
  revision : Option Int
  description : String
  display_name : String
  tag : List Tag
  address_binding_whitelist_enabled : Bool
  deriving DecidableEq, Repr

/-- The framework getter `d.Get("revision").(int)`: an unset integer field reads as 0. -/
def getRevision (revision : Option Int) : Int :=
  revision.getD 0

/-- The schema helpers that live outside the three source files, taken as
parameters: the tag converters, the string-set converters and the
normalisation the framework applies when a list is stored in a set field. -/
structure Helpers where
  getTagsFromSchema : List Tag → List Tag
  setTagsInSchema : List Tag → List Tag
  getStringListFromSchemaSet : List String → List String
  interface2StringList : List String → List String
  storeStringSet : List String → List String

/-- One observable step of an adapter: a call on the controller API, with its
arguments, or a line written with `log.Printf`. -/
inductive Event where
  | ReadNSGroup (id : String) (populateReferences : Bool)
  | ListNSGroups
  | CreateDhcpRelayProfile (payload : DhcpRelayProfile)
  | ReadDhcpRelayProfile (id : String)
  | UpdateDhcpRelayProfile (id : String) (payload : DhcpRelayProfile)
  | DeleteDhcpRelayProfile (id : String)
  | CreateSpoofGuardSwitchingProfile (payload : SpoofGuardSwitchingProfile)
  | GetSpoofGuardSwitchingProfile (id : String)
  | UpdateSpoofGuardSwitchingProfile (id : String) (payload : SpoofGuardSwitchingProfile)
  | DeleteSwitchingProfile (id : String)
  | log (msg : String)
  deriving DecidableEq, Repr

/-- The controller as the adapters see it: what each API method answers
(object, response, transport error) for the arguments it is called with. -/
structure APIClient where
  ReadNSGroup : String → Bool → NsGroup × Response × GoError
  ListNSGroups : NsGroupListResult × Response × GoError
  CreateDhcpRelayProfile : DhcpRelayProfile → DhcpRelayProfile × Response × GoError
  ReadDhcpRelayProfile : String → DhcpRelayProfile × Response × GoError
  UpdateDhcpRelayProfile : String → DhcpRelayProfile → DhcpRelayProfile × Response × GoError
  DeleteDhcpRelayProfile : String → Response × GoError
  CreateSpoofGuardSwitchingProfile :
    SpoofGuardSwitchingProfile → SpoofGuardSwitchingProfile × Response × GoError
  GetSpoofGuardSwitchingProfile : String → SpoofGuardSwitchingProfile × Response × GoError
  UpdateSpoofGuardSwitchingProfile :
    String → SpoofGuardSwitchingProfile → SpoofGuardSwitchingProfile × Response × GoError
  DeleteSwitchingProfile : String → Response × GoError

/-- What a call of an adapter function leaves behind: the returned error, the
resource data after the call, and the events it performed in order. -/
structure Outcome (σ : Type) where
  err : GoError
  d : σ
  trace : List Event

/-! ## `data_source_nsxt_ns_group.go` -/

/-- The loop `for _, objInList := range objList.Results` of
`dataSourceNsxtNsGroupRead`, with the loop variables `found` and `obj` as
arguments; `Except.error` is the `return fmt.Errorf(...)` inside the loop. -/
def nsGroupScan (objName : String) : List NsGroup → Bool → NsGroup → Except String (Bool × NsGroup)
  | [], found, obj => .ok (found, obj)
  | objInList :: rest, found, obj =>
    if objInList.DisplayName = objName then
      if found then
        .error ("Found multiple NS groups with name '" ++ objName ++ "'")
      else
        nsGroupScan objName rest true objInList
    else
      nsGroupScan objName rest found obj

/-- The tail of `dataSourceNsxtNsGroupRead` that copies `obj` into the state. -/
def nsGroupStore (obj : NsGroup) (d : NsGroupData) : NsGroupData :=
  { d with id := obj.Id, display_name := obj.DisplayName, description := obj.Description }

/-- Go `dataSourceNsxtNsGroupRead`. -/
def dataSourceNsxtNsGroupRead (m : APIClient) (d : NsGroupData) : Outcome NsGroupData :=
  let objID := d.id
  let objName := d.display_name
  if objID ≠ "" then
    match m.ReadNSGroup objID true with
    | (objGet, resp, err) =>
      if err ≠ none then
        ⟨some ("Error while reading ns group " ++ objID ++ ": " ++ fmtV err), d,
          [.ReadNSGroup objID true]⟩
      else if resp.StatusCode = StatusNotFound then
        ⟨some ("NS group " ++ objID ++ " was not found"), d, [.ReadNSGroup objID true]⟩
      else
        ⟨none, nsGroupStore objGet d, [.ReadNSGroup objID true]⟩
  else if objName ≠ "" then
    match m.ListNSGroups with
    | (objList, _, err) =>
      if err ≠ none then
        ⟨some ("Error while reading NS groups: " ++ fmtV err), d, [.ListNSGroups]⟩
      else
        match nsGroupScan objName objList.Results false {} with
        | .error e => ⟨some e, d, [.ListNSGroups]⟩
        | .ok (found, obj) =>
          if !found then
            ⟨some ("NS group '" ++ objName ++ "' was not found out of "
              ++ toString objList.Results.length ++ " groups"), d, [.ListNSGroups]⟩
          else
            ⟨none, nsGroupStore obj d, [.ListNSGroups]⟩
  else
    ⟨some "Error obtaining NS group ID or name during read", d, []⟩

/-! ## `resource_nsxt_dhcp_relay_profile.go` -/

/-- Go `resourceNsxtDhcpRelayProfileRead`. -/
def resourceNsxtDhcpRelayProfileRead (h : Helpers) (m : APIClient) (d : DhcpRelayData) :
    Outcome DhcpRelayData :=
  let id := d.id
  if id = "" then
    ⟨some "Error obtaining dhcp relay profile id", d, []⟩
  else
    match m.ReadDhcpRelayProfile id with
    | (dhcpRelayProfile, resp, err) =>
      if err ≠ none then
        ⟨some ("Error during DhcpRelayProfile read: " ++ fmtV err), d,
          [.ReadDhcpRelayProfile id]⟩
      else if resp.StatusCode = StatusNotFound then
        ⟨none, { d with id := "" },
          [.ReadDhcpRelayProfile id, .log ("[DEBUG] DhcpRelayProfile " ++ id ++ " not found")]⟩
      else
        ⟨none,
          { d with
            revision := some dhcpRelayProfile.Revision
            description := dhcpRelayProfile.Description
            display_name := dhcpRelayProfile.DisplayName
            tag := h.setTagsInSchema dhcpRelayProfile.Tags
            server_addresses := h.storeStringSet dhcpRelayProfile.ServerAddresses },
          [.ReadDhcpRelayProfile id]⟩

/-- The `manager.DhcpRelayProfile` that `resourceNsxtDhcpRelayProfileCreate` builds
from the state before the remote call (no `Id`, no `Revision`). -/
def dhcpRelayCreatePayload (h : Helpers) (d : DhcpRelayData) : DhcpRelayProfile :=
  let description := d.description
  let displayName := d.display_name
  let tags := h.getTagsFromSchema d.tag
  let serverAddresses := h.getStringListFromSchemaSet d.server_addresses
  { Description := description
    DisplayName := displayName
    Tags := tags
    ServerAddresses := serverAddresses }

/-- Go `resourceNsxtDhcpRelayProfileCreate`. -/
def resourceNsxtDhcpRelayProfileCreate (h : Helpers) (m : APIClient) (d : DhcpRelayData) :
    Outcome DhcpRelayData :=
  let payload := dhcpRelayCreatePayload h d
  match m.CreateDhcpRelayProfile payload with
  | (dhcpRelayProfile, resp, err) =>
    if err ≠ none then
      ⟨some ("Error during DhcpRelayProfile create: " ++ fmtV err), d,
        [.CreateDhcpRelayProfile payload]⟩
    else if resp.StatusCode ≠ StatusCreated then
      ⟨some ("Unexpected status returned during DhcpRelayProfile create: "
        ++ toString resp.StatusCode), d, [.CreateDhcpRelayProfile payload]⟩
    else
      let r := resourceNsxtDhcpRelayProfileRead h m { d with id := dhcpRelayProfile.Id }
      ⟨r.err, r.d, .CreateDhcpRelayProfile payload :: r.trace⟩

/-- The `manager.DhcpRelayProfile` that `resourceNsxtDhcpRelayProfileUpdate` builds
from the state before the remote call. -/
def dhcpRelayUpdatePayload (h : Helpers) (d : DhcpRelayData) : DhcpRelayProfile :=
  let revision := getRevision d.revision
  let description := d.description
  let displayName := d.display_name
  let tags := h.getTagsFromSchema d.tag
  let serverAddresses := h.interface2StringList d.server_addresses
  { Revision := revision
    Description := description
    DisplayName := displayName
    Tags := tags
    ServerAddresses := serverAddresses }

/-- Go `resourceNsxtDhcpRelayProfileUpdate`. -/
def resourceNsxtDhcpRelayProfileUpdate (h : Helpers) (m : APIClient) (d : DhcpRelayData) :
    Outcome DhcpRelayData :=
  let id := d.id
  if id = "" then
    ⟨some "Error obtaining dhcp relay profile id", d, []⟩
  else
    let payload := dhcpRelayUpdatePayload h d
    match m.UpdateDhcpRelayProfile id payload with
    | (_, resp, err) =>
      if err ≠ none ∨ resp.StatusCode = StatusNotFound then
        ⟨some ("Error during DhcpRelayProfile update: " ++ fmtV err), d,
          [.UpdateDhcpRelayProfile id payload]⟩
      else
        let r := resourceNsxtDhcpRelayProfileRead h m d
        ⟨r.err, r.d, .UpdateDhcpRelayProfile id payload :: r.trace⟩

/-- Go `resourceNsxtDhcpRelayProfileDelete`. -/
def resourceNsxtDhcpRelayProfileDelete (m : APIClient) (d : DhcpRelayData) :
    Outcome DhcpRelayData :=
  let id := d.id
  if id = "" then
    ⟨some "Error obtaining dhcp relay profile id", d, []⟩
  else
    match m.DeleteDhcpRelayProfile id with
    | (resp, err) =>
      if err ≠ none then
        ⟨some ("Error during DhcpRelayProfile delete: " ++ fmtV err), d,
          [.DeleteDhcpRelayProfile id]⟩
      else if resp.StatusCode = StatusNotFound then
        ⟨none, { d with id := "" },
          [.DeleteDhcpRelayProfile id, .log ("[DEBUG] DhcpRelayProfile " ++ id ++ " not found")]⟩
      else
        ⟨none, d, [.DeleteDhcpRelayProfile id]⟩

/-! ## `resource_nsxt_spoofguard_switching_profile.go` -/

/-- Go `resourceNsxtSpoofGuardSwitchingProfileRead`. -/
def resourceNsxtSpoofGuardSwitchingProfileRead (h : Helpers) (m : APIClient)
    (d : SpoofGuardData) : Outcome SpoofGuardData :=
  let id := d.id
  if id = "" then
    ⟨some "Error obtaining logical object id", d, []⟩
  else
    match m.GetSpoofGuardSwitchingProfile id with
    | (sgSwitchingProfile, resp, err) =>
      if err ≠ none then
        ⟨some ("Error during SpoofGuardSwitchingProfile read: " ++ fmtV err), d,
          [.GetSpoofGuardSwitchingProfile id]⟩
      else if resp.StatusCode = StatusNotFound then
        ⟨none, { d with id := "" },
          [.GetSpoofGuardSwitchingProfile id,
            .log ("[DEBUG] SpoofGuardSwitchingProfile " ++ id ++ " not found")]⟩
      else
        let d1 : SpoofGuardData :=
          { d with
            revision := some sgSwitchingProfile.Revision
            description := sgSwitchingProfile.Description
            display_name := sgSwitchingProfile.DisplayName
            tag := h.setTagsInSchema sgSwitchingProfile.Tags }
        if sgSwitchingProfile.WhiteListProviders.length = 1
            ∧ sgSwitchingProfile.WhiteListProviders.head? = some "LPORT_BINDINGS" then
          ⟨none, { d1 with address_binding_whitelist_enabled := true },
            [.GetSpoofGuardSwitchingProfile id]⟩
        else
          ⟨none, { d1 with address_binding_whitelist_enabled := false },
            [.GetSpoofGuardSwitchingProfile id]⟩

/-- The `manager.SpoofGuardSwitchingProfile` that
`resourceNsxtSpoofGuardSwitchingProfileCreate` builds from the state before the
remote call. -/
def spoofGuardCreatePayload (h : Helpers) (d : SpoofGuardData) : SpoofGuardSwitchingProfile :=
  let description := d.description
  let displayName := d.display_name
  let tags := h.getTagsFromSchema d.tag
  let whiteListProviders : List String := []
  let whiteListProviders :=
    if d.address_binding_whitelist_enabled then
      whiteListProviders ++ ["LPORT_BINDINGS"]
    else
      whiteListProviders
  { Description := description
    DisplayName := displayName
    Tags := tags
    WhiteListProviders := whiteListProviders }

/-- Go `resourceNsxtSpoofGuardSwitchingProfileCreate`. -/
def resourceNsxtSpoofGuardSwitchingProfileCreate (h : Helpers) (m : APIClient)
    (d : SpoofGuardData) : Outcome SpoofGuardData :=
  let payload := spoofGuardCreatePayload h d
  match m.CreateSpoofGuardSwitchingProfile payload with
  | (sgSwitchingProfile, resp, err) =>
    if err ≠ none then
      ⟨some ("Error during SpoofGuardSwitchingProfile create: " ++ fmtV err), d,
        [.CreateSpoofGuardSwitchingProfile payload]⟩
    else if resp.StatusCode ≠ StatusCreated then
      ⟨some ("Unexpected status returned during SpoofGuardSwitchingProfile create: "
        ++ toString resp.StatusCode), d, [.CreateSpoofGuardSwitchingProfile payload]⟩
    else
      let r := resourceNsxtSpoofGuardSwitchingProfileRead h m { d with id := sgSwitchingProfile.Id }
      ⟨r.err, r.d, .CreateSpoofGuardSwitchingProfile payload :: r.trace⟩

/-- The `manager.SpoofGuardSwitchingProfile` that
`resourceNsxtSpoofGuardSwitchingProfileUpdate` builds from the state before the
remote call. The function reads `description`, `display_name`, the tags and the
flag; the struct literal of the source names no `Revision`, which therefore has
the zero value. -/
def spoofGuardUpdatePayload (h : Helpers) (d : SpoofGuardData) : SpoofGuardSwitchingProfile :=
  let description := d.description
  let displayName := d.display_name
  let tags := h.getTagsFromSchema d.tag
  let whiteListProviders : List String := []
  let whiteListProviders :=
    if d.address_binding_whitelist_enabled then
      whiteListProviders ++ ["LPORT_BINDINGS"]
    else
      whiteListProviders
  { Description := description
    DisplayName := displayName
    Tags := tags
    WhiteListProviders := whiteListProviders }

/-- Go `resourceNsxtSpoofGuardSwitchingProfileUpdate`. -/
def resourceNsxtSpoofGuardSwitchingProfileUpdate (h : Helpers) (m : APIClient)
    (d : SpoofGuardData) : Outcome SpoofGuardData :=
  let id := d.id
  if id = "" then
    ⟨some "Error obtaining logical object id", d, []⟩
  else
    let payload := spoofGuardUpdatePayload h d
    match m.UpdateSpoofGuardSwitchingProfile id payload with
    | (_, resp, err) =>
      if err ≠ none ∨ resp.StatusCode = StatusNotFound then
        ⟨some ("Error during SpoofGuardSwitchingProfile update: " ++ fmtV err), d,
          [.UpdateSpoofGuardSwitchingProfile id payload]⟩
      else
        let r := resourceNsxtSpoofGuardSwitchingProfileRead h m d
        ⟨r.err, r.d, .UpdateSpoofGuardSwitchingProfile id payload :: r.trace⟩

/-- Go `resourceNsxtSpoofGuardSwitchingProfileDelete`. -/
def resourceNsxtSpoofGuardSwitchingProfileDelete (m : APIClient) (d : SpoofGuardData) :
    Outcome SpoofGuardData :=
  let id := d.id
  if id = "" then
    ⟨some "Error obtaining logical object id", d, []⟩
  else
    match m.DeleteSwitchingProfile id with
    | (resp, err) =>
      if err ≠ none then
        ⟨some ("Error during SpoofGuardSwitchingProfile delete: " ++ fmtV err), d,
          [.DeleteSwitchingProfile id]⟩
      else if resp.StatusCode = StatusNotFound then
        ⟨none, { d with id := "" },
          [.DeleteSwitchingProfile id,
            .log ("[DEBUG] SpoofGuardSwitchingProfile " ++ id ++ " not found")]⟩
      else
        ⟨none, d, [.DeleteSwitchingProfile id]⟩

/-! ## Concrete controllers and states used in the examples -/

/-- Helpers that pass tags and string lists through unchanged. -/
def plainHelpers : Helpers :=
  ⟨fun t => t, fun t => t, fun s => s, fun s => s, fun s => s⟩

/-- A controller that answers every call with `status`, an empty object and no
transport error, and lists the NS groups `groups`. -/
def constClient (status : Nat) (groups : List NsGroup) : APIClient where
  ReadNSGroup := fun _ _ => ({}, ⟨status⟩, none)
  ListNSGroups := (⟨groups⟩, ⟨status⟩, none)
  CreateDhcpRelayProfile := fun p => ({ p with Id := "p1" }, ⟨status⟩, none)
  ReadDhcpRelayProfile := fun id => ({ Id := id }, ⟨status⟩, none)
  UpdateDhcpRelayProfile := fun id p => ({ p with Id := id }, ⟨status⟩, none)
  DeleteDhcpRelayProfile := fun _ => (⟨status⟩, none)
  CreateSpoofGuardSwitchingProfile := fun p => ({ p with Id := "p1" }, ⟨status⟩, none)
  GetSpoofGuardSwitchingProfile := fun id => ({ Id := id }, ⟨status⟩, none)
  UpdateSpoofGuardSwitchingProfile := fun id p => ({ p with Id := id }, ⟨status⟩, none)
  DeleteSwitchingProfile := fun _ => (⟨status⟩, none)

/-- A controller like `constClient status []` whose SpoofGuard read answers with
the profile `stored`. -/
def storedClient (status : Nat) (stored : SpoofGuardSwitchingProfile) : APIClient :=
  { constClient status [] with
    GetSpoofGuardSwitchingProfile := fun _ => (stored, ⟨status⟩, none) }

/-- The rule of the controller client library (`go-vmware-nsxt`), which every API
method follows: a response whose status is 300 or more is returned together
with a non-nil error built from that status. -/
def statusReported (resp : Response) (err : GoError) : Prop :=
  300 ≤ resp.StatusCode → err ≠ none

/-- A controller on which no object exists: every call is answered with an
empty object, status 404 and, after the client rule, a non-nil error that names
the status. -/
def goneClient : APIClient where
  ReadNSGroup := fun _ _ => ({}, ⟨404⟩, some "Status: 404 Not Found")
  ListNSGroups := ({}, ⟨404⟩, some "Status: 404 Not Found")
  CreateDhcpRelayProfile := fun _ => ({}, ⟨404⟩, some "Status: 404 Not Found")
  ReadDhcpRelayProfile := fun _ => ({}, ⟨404⟩, some "Status: 404 Not Found")
  UpdateDhcpRelayProfile := fun _ _ => ({}, ⟨404⟩, some "Status: 404 Not Found")
  DeleteDhcpRelayProfile := fun _ => (⟨404⟩, some "Status: 404 Not Found")
  CreateSpoofGuardSwitchingProfile := fun _ => ({}, ⟨404⟩, some "Status: 404 Not Found")
  GetSpoofGuardSwitchingProfile := fun _ => ({}, ⟨404⟩, some "Status: 404 Not Found")
  UpdateSpoofGuardSwitchingProfile := fun _ _ => ({}, ⟨404⟩, some "Status: 404 Not Found")
  DeleteSwitchingProfile := fun _ => (⟨404⟩, some "Status: 404 Not Found")

/-- An NS group data source state that looks a group up by the name `X`. -/
def byNameX : NsGroupData := ⟨"", "X", ""⟩

/-- A DHCP relay profile state with an id and the revision 5 of the last read. -/
def relayState : DhcpRelayData :=
  ⟨"p1", some 5, "relay", "dhcp-relay", [⟨"dev", "blue"⟩], ["10.0.0.1"]⟩

/-- A SpoofGuard profile state with an id, the revision 5 of the last read and the
flag switched on. -/
def guardState : SpoofGuardData :=
  ⟨"p1", some 5, "guard", "spoof-guard", [⟨"dev", "blue"⟩], true⟩

/-! ## Lookup of an NS group by display name -/

/-- The groups of a listing whose display name is `objName`, in listing order. -/
def matching (objName : String) (l : List NsGroup) : List NsGroup :=
  l.filter (fun g => decide (g.DisplayName = objName))

/-- The message of the error returned when a second group of the same name is met. -/
def multipleMsg (objName : String) : String :=
  "Found multiple NS groups with name '" ++ objName ++ "'"

/-- The message of the error returned when no group of the listing has the name. -/
def notFoundMsg (objName : String) (total : Nat) : String :=
  "NS group '" ++ objName ++ "' was not found out of " ++ toString total ++ " groups"

theorem matching_cons_pos (objName : String) (g : NsGroup) (l : List NsGroup)
    (hg : g.DisplayName = objName) : matching objName (g :: l) = g :: matching objName l := by
  simp [matching, hg]

theorem matching_cons_neg (objName : String) (g : NsGroup) (l : List NsGroup)
    (hg : g.DisplayName ≠ objName) : matching objName (g :: l) = matching objName l := by
  simp [matching, hg]

theorem matching_length (objName : String) (l : List NsGroup) :
    (matching objName l).length = l.countP (fun g => decide (g.DisplayName = objName)) := by
  simp [matching, List.countP_eq_length_filter]

/-- Once a match has been seen, the scan ends well exactly when no further match follows. -/
theorem nsGroupScan_after_match (objName : String) (l : List NsGroup) (obj : NsGroup) :
    nsGroupScan objName l true obj =
      if matching objName l = [] then .ok (true, obj) else .error (multipleMsg objName) := by
  induction l with
  | nil => simp [nsGroupScan, matching]
  | cons g rest ih =>
    by_cases hg : g.DisplayName = objName
    · simp [nsGroupScan, hg, matching_cons_pos, multipleMsg]
    · simp [nsGroupScan, hg, matching_cons_neg, ih]

/-- Before any match, the scan is decided by the list of matching groups. -/
theorem nsGroupScan_fresh (objName : String) (l : List NsGroup) (obj : NsGroup) :
    nsGroupScan objName l false obj =
      match matching objName l with
      | [] => .ok (false, obj)
      | [g] => .ok (true, g)
      | _ :: _ :: _ => .error (multipleMsg objName) := by
  induction l with
  | nil => simp [nsGroupScan, matching]
  | cons g rest ih =>
    by_cases hg : g.DisplayName = objName
    · rw [matching_cons_pos objName g rest hg]
      simp only [nsGroupScan, hg, if_true, Bool.false_eq_true, if_false]
      rw [nsGroupScan_after_match]
      cases hm : matching objName rest with
      | nil => simp
      | cons a t => simp
    · rw [matching_cons_neg objName g rest hg]
      simp only [nsGroupScan, hg, if_false]
      exact ih

/-- The outcome of the by-name branch of the read, by the number of matches. -/
theorem nsGroupRead_by_name (m : APIClient) (d : NsGroupData) (objList : NsGroupListResult)
    (resp : Response) (hid : d.id = "") (hname : d.display_name ≠ "")
    (hlist : m.ListNSGroups = (objList, resp, none)) :
    dataSourceNsxtNsGroupRead m d =
      match matching d.display_name objList.Results with
      | [] => ⟨some (notFoundMsg d.display_name objList.Results.length), d, [.ListNSGroups]⟩
      | [g] => ⟨none, nsGroupStore g d, [.ListNSGroups]⟩
      | _ :: _ :: _ => ⟨some (multipleMsg d.display_name), d, [.ListNSGroups]⟩ := by
  unfold dataSourceNsxtNsGroupRead
  simp only [hid, hname, hlist, ne_eq, not_true_eq_false, not_false_eq_true, if_true, if_false]
  rw [nsGroupScan_fresh]
  cases hm : matching d.display_name objList.Results with
  | nil => simp [notFoundMsg]
  | cons a t =>
    cases t with
    | nil => simp
    | cons b u => simp

/-! ## Claims about `dataSourceNsxtNsGroupRead` -/

/-- Claim C1: in `dataSourceNsxtNsGroupRead`, when `id` is empty, `display_name` is
not empty and `ListNSGroups` answers without error, the read succeeds if and only
if exactly one listed group has that display name; if the only match is `g`,
wherever it sits in the list, the read succeeds and the state's id, display name
and description are those of `g`; if no group matches, the read fails with the
not-found error that names the display name and the length of the list. -/
theorem C1_read_by_name_unique (m : APIClient) (d : NsGroupData)
    (objList : NsGroupListResult) (resp : Response)
    (hid : d.id = "") (hname : d.display_name ≠ "")
    (hlist : m.ListNSGroups = (objList, resp, none)) :
    ((dataSourceNsxtNsGroupRead m d).err = none ↔
        objList.Results.countP (fun g => decide (g.DisplayName = d.display_name)) = 1)
    ∧ (∀ (pre : List NsGroup) (g : NsGroup) (post : List NsGroup),
        objList.Results = pre ++ g :: post → g.DisplayName = d.display_name →
        (∀ x ∈ pre ++ post, x.DisplayName ≠ d.display_name) →
        (dataSourceNsxtNsGroupRead m d).err = none
          ∧ (dataSourceNsxtNsGroupRead m d).d.id = g.Id
          ∧ (dataSourceNsxtNsGroupRead m d).d.display_name = g.DisplayName
          ∧ (dataSourceNsxtNsGroupRead m d).d.description = g.Description)
    ∧ (objList.Results.countP (fun g => decide (g.DisplayName = d.display_name)) = 0 →
        (dataSourceNsxtNsGroupRead m d).err =
            some ("NS group '" ++ d.display_name ++ "' was not found out of "
              ++ toString objList.Results.length ++ " groups")
          ∧ (dataSourceNsxtNsGroupRead m d).d = d) := by
  have hread := nsGroupRead_by_name m d objList resp hid hname hlist
  have hlen := matching_length d.display_name objList.Results
  refine ⟨?_, ?_, ?_⟩
  · rw [hread, ← hlen]
    cases hm : matching d.display_name objList.Results with
    | nil => simp
    | cons a t =>
      cases t with
      | nil => simp
      | cons b u => simp
  · intro pre g post hsplit hg hothers
    have hm : matching d.display_name objList.Results = [g] := by
      have hpre : pre.filter (fun x => decide (x.DisplayName = d.display_name)) = [] := by
        rw [List.filter_eq_nil_iff]
        intro x hx
        simpa using hothers x (List.mem_append_left post hx)
      have hpost : post.filter (fun x => decide (x.DisplayName = d.display_name)) = [] := by
        rw [List.filter_eq_nil_iff]
        intro x hx
        simpa using hothers x (List.mem_append_right pre hx)
      simp [matching, hsplit, List.filter_append, List.filter_cons, hg, hpre, hpost]
    rw [hread, hm]
    simp [nsGroupStore]
  · intro hzero
    rw [← hlen] at hzero
    have hm : matching d.display_name objList.Results = [] := List.length_eq_zero.mp hzero
    rw [hread, hm]
    simp [notFoundMsg]

/-- Claim C1, an instance: the group named `X` is found between two others. -/
theorem C1_read_by_name_unique_witness :
    (dataSourceNsxtNsGroupRead
        (constClient 200 [⟨"g1", "A", "first"⟩, ⟨"g2", "X", "second"⟩, ⟨"g3", "B", "third"⟩])
        byNameX).d.id = "g2" :=
  ((C1_read_by_name_unique
      (constClient 200 [⟨"g1", "A", "first"⟩, ⟨"g2", "X", "second"⟩, ⟨"g3", "B", "third"⟩])
      byNameX ⟨[⟨"g1", "A", "first"⟩, ⟨"g2", "X", "second"⟩, ⟨"g3", "B", "third"⟩]⟩ ⟨200⟩
      rfl (by decide) rfl).2.1
    [⟨"g1", "A", "first"⟩] ⟨"g2", "X", "second"⟩ [⟨"g3", "B", "third"⟩] rfl rfl
    (by decide)).2.1

/-- Claim C2 as stated fails: with two groups named `X` the returned error is the
message that names `X` only, and it is the very same error when three groups are
named `X`, so the error carries no count of the matches. -/
theorem C2_error_has_no_count :
    (dataSourceNsxtNsGroupRead (constClient 200 [⟨"g1", "X", ""⟩, ⟨"g2", "X", ""⟩]) byNameX).err
        = some "Found multiple NS groups with name 'X'"
    ∧ (dataSourceNsxtNsGroupRead
        (constClient 200 [⟨"g1", "X", ""⟩, ⟨"g2", "X", ""⟩, ⟨"g3", "X", ""⟩]) byNameX).err
        = some "Found multiple NS groups with name 'X'"
    ∧ List.countP (fun g => decide (g.DisplayName = "X"))
        [(⟨"g1", "X", ""⟩ : NsGroup), ⟨"g2", "X", ""⟩] = 2
    ∧ List.countP (fun g => decide (g.DisplayName = "X"))
        [(⟨"g1", "X", ""⟩ : NsGroup), ⟨"g2", "X", ""⟩, ⟨"g3", "X", ""⟩] = 3 := by
  refine ⟨by decide, by decide, by decide, by decide⟩

/-- Claim C2, amended: in `dataSourceNsxtNsGroupRead`, when `id` is empty,
`display_name` is not empty and `ListNSGroups` answers without error with more
than one group of that display name, the read returns the error "Found multiple
NS groups with name" followed by the quoted name, which carries the name and no
count, and the state is left as it was: no group is picked. -/
theorem C2_read_by_name_ambiguous (m : APIClient) (d : NsGroupData)
    (objList : NsGroupListResult) (resp : Response)
    (hid : d.id = "") (hname : d.display_name ≠ "")
    (hlist : m.ListNSGroups = (objList, resp, none))
    (hmany : 2 ≤ objList.Results.countP (fun g => decide (g.DisplayName = d.display_name))) :
    (dataSourceNsxtNsGroupRead m d).err =
        some ("Found multiple NS groups with name '" ++ d.display_name ++ "'")
    ∧ (dataSourceNsxtNsGroupRead m d).d = d
    ∧ (dataSourceNsxtNsGroupRead m d).trace = [.ListNSGroups] := by
  have hread := nsGroupRead_by_name m d objList resp hid hname hlist
  rw [← matching_length] at hmany
  rw [hread]
  cases hm : matching d.display_name objList.Results with
  | nil => simp [hm] at hmany
  | cons a t =>
    cases t with
    | nil => simp [hm] at hmany
    | cons b u => simp [multipleMsg]

/-- Claim C2 amended, an instance: two groups named `X` leave the state untouched. -/
theorem C2_read_by_name_ambiguous_witness :
    (dataSourceNsxtNsGroupRead (constClient 200 [⟨"g1", "X", "one"⟩, ⟨"g2", "X", "two"⟩])
        byNameX).d = byNameX :=
  (C2_read_by_name_ambiguous (constClient 200 [⟨"g1", "X", "one"⟩, ⟨"g2", "X", "two"⟩])
    byNameX ⟨[⟨"g1", "X", "one"⟩, ⟨"g2", "X", "two"⟩]⟩ ⟨200⟩ rfl (by decide) rfl
    (by decide)).2.1

/-! ## The SpoofGuard flag and its list encoding -/

/-- What a successful read of the SpoofGuard profile stores in the flag. -/
theorem spoofGuardRead_flag (h : Helpers) (m : APIClient) (d : SpoofGuardData)
    (obj : SpoofGuardSwitchingProfile) (resp : Response) (hid : d.id ≠ "")
    (hget : m.GetSpoofGuardSwitchingProfile d.id = (obj, resp, none))
    (hstatus : resp.StatusCode ≠ StatusNotFound) :
    (resourceNsxtSpoofGuardSwitchingProfileRead h m d).err = none
    ∧ (resourceNsxtSpoofGuardSwitchingProfileRead h m d).d.address_binding_whitelist_enabled
        = decide (obj.WhiteListProviders = ["LPORT_BINDINGS"]) := by
  unfold resourceNsxtSpoofGuardSwitchingProfileRead
  simp only [hid, hget, hstatus, if_false, ne_eq, not_true_eq_false]
  rcases hw : obj.WhiteListProviders with _ | ⟨a, _ | ⟨b, t⟩⟩
  · simp
  · by_cases ha : a = "LPORT_BINDINGS" <;> simp [ha]
  · simp

/-- Claim C3: the `WhiteListProviders` list that Create and Update of the
SpoofGuard switching profile send for `address_binding_whitelist_enabled = b`
(Create always, Update on a non-empty id) is `["LPORT_BINDINGS"]` when `b` is
true and empty when `b` is false, and a successful Read that receives a profile
with that list sets the flag to `b` again. -/
theorem C3_flag_round_trip (h : Helpers) (m : APIClient) (d : SpoofGuardData) :
    (resourceNsxtSpoofGuardSwitchingProfileCreate h m d).trace.head?
        = some (.CreateSpoofGuardSwitchingProfile (spoofGuardCreatePayload h d))
    ∧ (d.id ≠ "" → (resourceNsxtSpoofGuardSwitchingProfileUpdate h m d).trace.head?
        = some (.UpdateSpoofGuardSwitchingProfile d.id (spoofGuardUpdatePayload h d)))
    ∧ (spoofGuardCreatePayload h d).WhiteListProviders
        = (if d.address_binding_whitelist_enabled then ["LPORT_BINDINGS"] else [])
    ∧ (spoofGuardUpdatePayload h d).WhiteListProviders
        = (if d.address_binding_whitelist_enabled then ["LPORT_BINDINGS"] else [])
    ∧ (∀ (h2 : Helpers) (m2 : APIClient) (d2 : SpoofGuardData)
        (obj : SpoofGuardSwitchingProfile) (resp : Response),
        d2.id ≠ "" → m2.GetSpoofGuardSwitchingProfile d2.id = (obj, resp, none) →
        resp.StatusCode ≠ StatusNotFound →
        (obj.WhiteListProviders = (spoofGuardCreatePayload h d).WhiteListProviders
          ∨ obj.WhiteListProviders = (spoofGuardUpdatePayload h d).WhiteListProviders) →
        (resourceNsxtSpoofGuardSwitchingProfileRead h2 m2 d2).err = none
        ∧ (resourceNsxtSpoofGuardSwitchingProfileRead h2 m2 d2).d.address_binding_whitelist_enabled
            = d.address_binding_whitelist_enabled) := by
  have hc : (spoofGuardCreatePayload h d).WhiteListProviders
      = (if d.address_binding_whitelist_enabled then ["LPORT_BINDINGS"] else []) := by
    cases hb : d.address_binding_whitelist_enabled <;> simp [spoofGuardCreatePayload, hb]
  have hu : (spoofGuardUpdatePayload h d).WhiteListProviders
      = (if d.address_binding_whitelist_enabled then ["LPORT_BINDINGS"] else []) := by
    cases hb : d.address_binding_whitelist_enabled <;> simp [spoofGuardUpdatePayload, hb]
  refine ⟨?_, ?_, hc, hu, ?_⟩
  · unfold resourceNsxtSpoofGuardSwitchingProfileCreate
    rcases hx : m.CreateSpoofGuardSwitchingProfile (spoofGuardCreatePayload h d)
      with ⟨o, resp, err⟩
    simp only []
    split_ifs <;> simp
  · intro hid
    unfold resourceNsxtSpoofGuardSwitchingProfileUpdate
    rcases hx : m.UpdateSpoofGuardSwitchingProfile d.id (spoofGuardUpdatePayload h d)
      with ⟨o, resp, err⟩
    simp only [hid, if_false]
    split_ifs <;> simp
  · intro h2 m2 d2 obj resp hid2 hget hstatus hw
    have hw2 : obj.WhiteListProviders
        = (if d.address_binding_whitelist_enabled then ["LPORT_BINDINGS"] else []) := by
      rcases hw with hw | hw
      · rw [hw, hc]
      · rw [hw, hu]
    have hr := spoofGuardRead_flag h2 m2 d2 obj resp hid2 hget hstatus
    refine ⟨hr.1, ?_⟩
    rw [hr.2, hw2]
    cases d.address_binding_whitelist_enabled <;> simp

/-- Claim C3, an instance: the list sent by Create for the flag `true` is read
back as `true` by a state whose flag was `false`. -/
theorem C3_flag_round_trip_witness :
    (resourceNsxtSpoofGuardSwitchingProfileRead plainHelpers
        (storedClient 200 { Id := "p1", WhiteListProviders := ["LPORT_BINDINGS"] })
        { guardState with address_binding_whitelist_enabled := false }).d.address_binding_whitelist_enabled
      = true :=
  ((C3_flag_round_trip plainHelpers (constClient 201 []) guardState).2.2.2.2
    plainHelpers (storedClient 200 { Id := "p1", WhiteListProviders := ["LPORT_BINDINGS"] })
    { guardState with address_binding_whitelist_enabled := false }
    { Id := "p1", WhiteListProviders := ["LPORT_BINDINGS"] } ⟨200⟩
    (by decide) rfl (by decide) (Or.inl rfl)).2

/-- Claim C4: in `resourceNsxtSpoofGuardSwitchingProfileRead`, after a successful
read (no transport error, status other than 404) the flag
`address_binding_whitelist_enabled` is true if and only if the returned
`WhiteListProviders` is the one-element list `["LPORT_BINDINGS"]`; the lists
`["LPORT_BINDINGS", x]`, the empty list and `[y]` with `y` another string all
give false. -/
theorem C4_flag_decoding (h : Helpers) (m : APIClient) (d : SpoofGuardData)
    (obj : SpoofGuardSwitchingProfile) (resp : Response) (hid : d.id ≠ "")
    (hget : m.GetSpoofGuardSwitchingProfile d.id = (obj, resp, none))
    (hstatus : resp.StatusCode ≠ StatusNotFound) :
    ((resourceNsxtSpoofGuardSwitchingProfileRead h m d).d.address_binding_whitelist_enabled = true
        ↔ (obj.WhiteListProviders.length = 1
            ∧ ∀ x ∈ obj.WhiteListProviders, x = "LPORT_BINDINGS"))
    ∧ (∀ x, obj.WhiteListProviders = ["LPORT_BINDINGS", x] →
        (resourceNsxtSpoofGuardSwitchingProfileRead h m d).d.address_binding_whitelist_enabled
          = false)
    ∧ (obj.WhiteListProviders = [] →
        (resourceNsxtSpoofGuardSwitchingProfileRead h m d).d.address_binding_whitelist_enabled
          = false)
    ∧ (∀ y, y ≠ "LPORT_BINDINGS" → obj.WhiteListProviders = [y] →
        (resourceNsxtSpoofGuardSwitchingProfileRead h m d).d.address_binding_whitelist_enabled
          = false) := by
  have hr := (spoofGuardRead_flag h m d obj resp hid hget hstatus).2
  rw [hr]
  refine ⟨?_, ?_, ?_, ?_⟩
  · rcases hw : obj.WhiteListProviders with _ | ⟨a, _ | ⟨b, t⟩⟩ <;> simp
  · intro x hx
    simp [hx]
  · intro hx
    simp [hx]
  · intro y hy hx
    simp [hx, hy]

/-- Claim C4, an instance: the list `["LPORT_BINDINGS", "X"]` decodes to false. -/
theorem C4_flag_decoding_witness :
    (resourceNsxtSpoofGuardSwitchingProfileRead plainHelpers
        (storedClient 200 { Id := "p1", WhiteListProviders := ["LPORT_BINDINGS", "X"] })
        guardState).d.address_binding_whitelist_enabled = false :=
  (C4_flag_decoding plainHelpers
    (storedClient 200 { Id := "p1", WhiteListProviders := ["LPORT_BINDINGS", "X"] })
    guardState { Id := "p1", WhiteListProviders := ["LPORT_BINDINGS", "X"] } ⟨200⟩
    (by decide) rfl (by decide)).2.1 "X" rfl

/-! ## Status handling of Create, Update, Read and Delete -/

/-- Claim C5: in `resourceNsxtDhcpRelayProfileCreate` and
`resourceNsxtSpoofGuardSwitchingProfileCreate`, when the remote Create call
answers without transport error and with a status other than 201, Create
returns the unexpected-status error, leaves the state (its id included) as it
was, and its only event is the Create call: no read follows. -/
theorem C5_create_requires_201 (h : Helpers) (m : APIClient)
    (d1 : DhcpRelayData) (obj1 : DhcpRelayProfile) (resp1 : Response)
    (d2 : SpoofGuardData) (obj2 : SpoofGuardSwitchingProfile) (resp2 : Response)
    (hc1 : m.CreateDhcpRelayProfile (dhcpRelayCreatePayload h d1) = (obj1, resp1, none))
    (hs1 : resp1.StatusCode ≠ StatusCreated)
    (hc2 : m.CreateSpoofGuardSwitchingProfile (spoofGuardCreatePayload h d2)
      = (obj2, resp2, none))
    (hs2 : resp2.StatusCode ≠ StatusCreated) :
    ((resourceNsxtDhcpRelayProfileCreate h m d1).err
        = some ("Unexpected status returned during DhcpRelayProfile create: "
            ++ toString resp1.StatusCode)
      ∧ (resourceNsxtDhcpRelayProfileCreate h m d1).d = d1
      ∧ (resourceNsxtDhcpRelayProfileCreate h m d1).trace
          = [.CreateDhcpRelayProfile (dhcpRelayCreatePayload h d1)])
    ∧ ((resourceNsxtSpoofGuardSwitchingProfileCreate h m d2).err
        = some ("Unexpected status returned during SpoofGuardSwitchingProfile create: "
            ++ toString resp2.StatusCode)
      ∧ (resourceNsxtSpoofGuardSwitchingProfileCreate h m d2).d = d2
      ∧ (resourceNsxtSpoofGuardSwitchingProfileCreate h m d2).trace
          = [.CreateSpoofGuardSwitchingProfile (spoofGuardCreatePayload h d2)]) := by
  constructor
  · simp [resourceNsxtDhcpRelayProfileCreate, hc1, hs1]
  · simp [resourceNsxtSpoofGuardSwitchingProfileCreate, hc2, hs2]

/-- Claim C5, an instance: a controller that answers Create with 200 and the id
`p1` leaves the empty id of the state in place. -/
theorem C5_create_requires_201_witness :
    (resourceNsxtDhcpRelayProfileCreate plainHelpers (constClient 200 [])
        { relayState with id := "" }).d.id = ""
    ∧ (resourceNsxtSpoofGuardSwitchingProfileCreate plainHelpers (constClient 200 [])
        { guardState with id := "" }).d.id = "" :=
  have w := C5_create_requires_201 plainHelpers (constClient 200 [])
    { relayState with id := "" }
    { dhcpRelayCreatePayload plainHelpers { relayState with id := "" } with Id := "p1" } ⟨200⟩
    { guardState with id := "" }
    { spoofGuardCreatePayload plainHelpers { guardState with id := "" } with Id := "p1" } ⟨200⟩
    rfl (by decide) rfl (by decide)
  ⟨congrArg DhcpRelayData.id w.1.2.1, congrArg SpoofGuardData.id w.2.2.1⟩

/-- Claim C6: in `resourceNsxtDhcpRelayProfileUpdate` and
`resourceNsxtSpoofGuardSwitchingProfileUpdate`, for a non-empty id, when the
remote Update call answers with status 404, with or without a transport error,
Update returns an error, leaves the state (its id included) as it was, and its
only event is the Update call: no read follows. -/
theorem C6_update_404_is_error (h : Helpers) (m : APIClient)
    (d1 : DhcpRelayData) (obj1 : DhcpRelayProfile) (resp1 : Response) (err1 : GoError)
    (d2 : SpoofGuardData) (obj2 : SpoofGuardSwitchingProfile) (resp2 : Response)
    (err2 : GoError)
    (hid1 : d1.id ≠ "") (hid2 : d2.id ≠ "")
    (hu1 : m.UpdateDhcpRelayProfile d1.id (dhcpRelayUpdatePayload h d1) = (obj1, resp1, err1))
    (hs1 : resp1.StatusCode = StatusNotFound)
    (hu2 : m.UpdateSpoofGuardSwitchingProfile d2.id (spoofGuardUpdatePayload h d2)
      = (obj2, resp2, err2))
    (hs2 : resp2.StatusCode = StatusNotFound) :
    ((resourceNsxtDhcpRelayProfileUpdate h m d1).err
        = some ("Error during DhcpRelayProfile update: " ++ fmtV err1)
      ∧ (resourceNsxtDhcpRelayProfileUpdate h m d1).d = d1
      ∧ (resourceNsxtDhcpRelayProfileUpdate h m d1).trace
          = [.UpdateDhcpRelayProfile d1.id (dhcpRelayUpdatePayload h d1)])
    ∧ ((resourceNsxtSpoofGuardSwitchingProfileUpdate h m d2).err
        = some ("Error during SpoofGuardSwitchingProfile update: " ++ fmtV err2)
      ∧ (resourceNsxtSpoofGuardSwitchingProfileUpdate h m d2).d = d2
      ∧ (resourceNsxtSpoofGuardSwitchingProfileUpdate h m d2).trace
          = [.UpdateSpoofGuardSwitchingProfile d2.id (spoofGuardUpdatePayload h d2)]) := by
  constructor
  · simp [resourceNsxtDhcpRelayProfileUpdate, hid1, hu1, hs1]
  · simp [resourceNsxtSpoofGuardSwitchingProfileUpdate, hid2, hu2, hs2]

/-- Claim C6, an instance: a controller that answers 404 without transport error
makes both updates fail, the message ending in the rendering of a nil error. -/
theorem C6_update_404_is_error_witness :
    (resourceNsxtDhcpRelayProfileUpdate plainHelpers (constClient 404 []) relayState).err
        = some ("Error during DhcpRelayProfile update: " ++ fmtV none)
    ∧ (resourceNsxtSpoofGuardSwitchingProfileUpdate plainHelpers (constClient 404 [])
        guardState).err
        = some ("Error during SpoofGuardSwitchingProfile update: " ++ fmtV none) :=
  have w := C6_update_404_is_error plainHelpers (constClient 404 [])
    relayState { dhcpRelayUpdatePayload plainHelpers relayState with Id := "p1" } ⟨404⟩ none
    guardState { spoofGuardUpdatePayload plainHelpers guardState with Id := "p1" } ⟨404⟩ none
    (by decide) (by decide) rfl rfl rfl rfl
  ⟨w.1.1, w.2.1⟩

/-- A read whose answer has status 404 and obeys the client rule returns the read
error, whatever the state: the test of the transport error comes first, so the
not-found branch is not taken and the id is kept. -/
theorem dhcpRelayRead_404_reported (h : Helpers) (m : APIClient) (d : DhcpRelayData)
    (obj : DhcpRelayProfile) (resp : Response) (err : GoError) (hid : d.id ≠ "")
    (hr : m.ReadDhcpRelayProfile d.id = (obj, resp, err))
    (hs : resp.StatusCode = StatusNotFound) (hc : statusReported resp err) :
    (resourceNsxtDhcpRelayProfileRead h m d).err
        = some ("Error during DhcpRelayProfile read: " ++ fmtV err)
    ∧ (resourceNsxtDhcpRelayProfileRead h m d).d = d
    ∧ (resourceNsxtDhcpRelayProfileRead h m d).trace = [.ReadDhcpRelayProfile d.id] := by
  have hne : err ≠ none := hc (by rw [hs]; decide)
  simp [resourceNsxtDhcpRelayProfileRead, hid, hr, hne]

/-- The SpoofGuard read behaves in the same way on a reported 404. -/
theorem spoofGuardRead_404_reported (h : Helpers) (m : APIClient) (d : SpoofGuardData)
    (obj : SpoofGuardSwitchingProfile) (resp : Response) (err : GoError) (hid : d.id ≠ "")
    (hr : m.GetSpoofGuardSwitchingProfile d.id = (obj, resp, err))
    (hs : resp.StatusCode = StatusNotFound) (hc : statusReported resp err) :
    (resourceNsxtSpoofGuardSwitchingProfileRead h m d).err
        = some ("Error during SpoofGuardSwitchingProfile read: " ++ fmtV err)
    ∧ (resourceNsxtSpoofGuardSwitchingProfileRead h m d).d = d
    ∧ (resourceNsxtSpoofGuardSwitchingProfileRead h m d).trace
        = [.GetSpoofGuardSwitchingProfile d.id] := by
  have hne : err ≠ none := hc (by rw [hs]; decide)
  simp [resourceNsxtSpoofGuardSwitchingProfileRead, hid, hr, hne]

/-- A delete whose answer has status 404 and obeys the client rule returns the
delete error and keeps the id. -/
theorem dhcpRelayDelete_404_reported (m : APIClient) (d : DhcpRelayData)
    (resp : Response) (err : GoError) (hid : d.id ≠ "")
    (hd : m.DeleteDhcpRelayProfile d.id = (resp, err))
    (hs : resp.StatusCode = StatusNotFound) (hc : statusReported resp err) :
    (resourceNsxtDhcpRelayProfileDelete m d).err
        = some ("Error during DhcpRelayProfile delete: " ++ fmtV err)
    ∧ (resourceNsxtDhcpRelayProfileDelete m d).d = d
    ∧ (resourceNsxtDhcpRelayProfileDelete m d).trace = [.DeleteDhcpRelayProfile d.id] := by
  have hne : err ≠ none := hc (by rw [hs]; decide)
  simp [resourceNsxtDhcpRelayProfileDelete, hid, hd, hne]

/-- The SpoofGuard delete behaves in the same way on a reported 404. -/
theorem spoofGuardDelete_404_reported (m : APIClient) (d : SpoofGuardData)
    (resp : Response) (err : GoError) (hid : d.id ≠ "")
    (hd : m.DeleteSwitchingProfile d.id = (resp, err))
    (hs : resp.StatusCode = StatusNotFound) (hc : statusReported resp err) :
    (resourceNsxtSpoofGuardSwitchingProfileDelete m d).err
        = some ("Error during SpoofGuardSwitchingProfile delete: " ++ fmtV err)
    ∧ (resourceNsxtSpoofGuardSwitchingProfileDelete m d).d = d
    ∧ (resourceNsxtSpoofGuardSwitchingProfileDelete m d).trace
        = [.DeleteSwitchingProfile d.id] := by
  have hne : err ≠ none := hc (by rw [hs]; decide)
  simp [resourceNsxtSpoofGuardSwitchingProfileDelete, hid, hd, hne]

/-- The not-found branch of the four functions is taken only on an answer that
breaks the client rule: status 404 together with a nil error. -/
theorem not_found_answer_breaks_client_rule (resp : Response)
    (hs : resp.StatusCode = StatusNotFound) : ¬ statusReported resp none := by
  intro hc
  exact hc (by rw [hs]; decide) rfl

/-- Claim C7 fails on the code: for the id `p1` that the controller answers with
status 404, carried as the client library carries it (with a non-nil error),
`resourceNsxtDhcpRelayProfileRead` and `resourceNsxtSpoofGuardSwitchingProfileRead`
return the read error instead of reporting Deleted, keep the id `p1` and do not
log the not-found line: the error test precedes the 404 test. -/
theorem C7_read_404_returns_error :
    statusReported ⟨404⟩ (some "Status: 404 Not Found")
    ∧ goneClient.ReadDhcpRelayProfile "p1" = ({}, ⟨404⟩, some "Status: 404 Not Found")
    ∧ (resourceNsxtDhcpRelayProfileRead plainHelpers goneClient relayState).err
        = some "Error during DhcpRelayProfile read: Status: 404 Not Found"
    ∧ (resourceNsxtDhcpRelayProfileRead plainHelpers goneClient relayState).d.id = "p1"
    ∧ (resourceNsxtDhcpRelayProfileRead plainHelpers goneClient relayState).trace
        = [.ReadDhcpRelayProfile "p1"]
    ∧ goneClient.GetSpoofGuardSwitchingProfile "p1"
        = ({}, ⟨404⟩, some "Status: 404 Not Found")
    ∧ (resourceNsxtSpoofGuardSwitchingProfileRead plainHelpers goneClient guardState).err
        = some "Error during SpoofGuardSwitchingProfile read: Status: 404 Not Found"
    ∧ (resourceNsxtSpoofGuardSwitchingProfileRead plainHelpers goneClient guardState).d.id
        = "p1"
    ∧ (resourceNsxtSpoofGuardSwitchingProfileRead plainHelpers goneClient guardState).trace
        = [.GetSpoofGuardSwitchingProfile "p1"] := by
  refine ⟨fun _ => by decide, rfl, by decide, by decide, by decide, rfl, by decide,
    by decide, by decide⟩

/-- Claim C8 fails on the code: for the id `p1` that does not exist remotely, so
that the Delete call is answered with status 404, carried as the client library
carries it (with a non-nil error), `resourceNsxtDhcpRelayProfileDelete` and
`resourceNsxtSpoofGuardSwitchingProfileDelete` return the delete error instead of
nil and keep the id `p1`: the error test precedes the 404 test. -/
theorem C8_delete_404_returns_error :
    statusReported ⟨404⟩ (some "Status: 404 Not Found")
    ∧ goneClient.DeleteDhcpRelayProfile "p1" = (⟨404⟩, some "Status: 404 Not Found")
    ∧ (resourceNsxtDhcpRelayProfileDelete goneClient relayState).err
        = some "Error during DhcpRelayProfile delete: Status: 404 Not Found"
    ∧ (resourceNsxtDhcpRelayProfileDelete goneClient relayState).d.id = "p1"
    ∧ (resourceNsxtDhcpRelayProfileDelete goneClient relayState).trace
        = [.DeleteDhcpRelayProfile "p1"]
    ∧ goneClient.DeleteSwitchingProfile "p1" = (⟨404⟩, some "Status: 404 Not Found")
    ∧ (resourceNsxtSpoofGuardSwitchingProfileDelete goneClient guardState).err
        = some "Error during SpoofGuardSwitchingProfile delete: Status: 404 Not Found"
    ∧ (resourceNsxtSpoofGuardSwitchingProfileDelete goneClient guardState).d.id = "p1"
    ∧ (resourceNsxtSpoofGuardSwitchingProfileDelete goneClient guardState).trace
        = [.DeleteSwitchingProfile "p1"] := by
  refine ⟨fun _ => by decide, rfl, by decide, by decide, by decide, rfl, by decide,
    by decide, by decide⟩

/-! ## The revision sent by Update -/

/-- The DHCP relay Update payload carries the revision read from the state. -/
theorem dhcpRelayUpdatePayload_revision (h : Helpers) (d : DhcpRelayData) :
    (dhcpRelayUpdatePayload h d).Revision = getRevision d.revision := rfl

/-- The SpoofGuard Update payload carries revision 0 whatever the state holds. -/
theorem spoofGuardUpdatePayload_revision (h : Helpers) (d : SpoofGuardData) :
    (spoofGuardUpdatePayload h d).Revision = 0 := rfl

/-- The first event of a DHCP relay Update on a non-empty id is the remote call. -/
theorem dhcpRelayUpdate_first_event (h : Helpers) (m : APIClient) (d : DhcpRelayData)
    (hid : d.id ≠ "") :
    (resourceNsxtDhcpRelayProfileUpdate h m d).trace.head?
      = some (.UpdateDhcpRelayProfile d.id (dhcpRelayUpdatePayload h d)) := by
  unfold resourceNsxtDhcpRelayProfileUpdate
  rcases hx : m.UpdateDhcpRelayProfile d.id (dhcpRelayUpdatePayload h d) with ⟨o, resp, err⟩
  simp only [hid, if_false]
  split_ifs <;> simp

/-- The first event of a SpoofGuard Update on a non-empty id is the remote call. -/
theorem spoofGuardUpdate_first_event (h : Helpers) (m : APIClient) (d : SpoofGuardData)
    (hid : d.id ≠ "") :
    (resourceNsxtSpoofGuardSwitchingProfileUpdate h m d).trace.head?
      = some (.UpdateSpoofGuardSwitchingProfile d.id (spoofGuardUpdatePayload h d)) := by
  unfold resourceNsxtSpoofGuardSwitchingProfileUpdate
  rcases hx : m.UpdateSpoofGuardSwitchingProfile d.id (spoofGuardUpdatePayload h d)
    with ⟨o, resp, err⟩
  simp only [hid, if_false]
  split_ifs <;> simp

/-- When a DHCP relay Update on a non-empty id returns no error. -/
theorem dhcpRelayUpdate_ok_iff (h : Helpers) (m : APIClient) (d : DhcpRelayData)
    (hid : d.id ≠ "") :
    (resourceNsxtDhcpRelayProfileUpdate h m d).err = none ↔
      ((m.UpdateDhcpRelayProfile d.id (dhcpRelayUpdatePayload h d)).2.2 = none
        ∧ (m.UpdateDhcpRelayProfile d.id (dhcpRelayUpdatePayload h d)).2.1.StatusCode
            ≠ StatusNotFound
        ∧ (resourceNsxtDhcpRelayProfileRead h m d).err = none) := by
  unfold resourceNsxtDhcpRelayProfileUpdate
  rcases hx : m.UpdateDhcpRelayProfile d.id (dhcpRelayUpdatePayload h d) with ⟨o, resp, err⟩
  simp only [hid, hx, if_false]
  split_ifs with hc
  · simp only [reduceCtorEq, false_iff, not_and]
    intro he hs
    rcases hc with hc | hc
    · exact absurd he hc
    · exact absurd hc hs
  · simp only [not_or, not_not] at hc
    simp [hc.1, hc.2]

/-- When a SpoofGuard Update on a non-empty id returns no error. -/
theorem spoofGuardUpdate_ok_iff (h : Helpers) (m : APIClient) (d : SpoofGuardData)
    (hid : d.id ≠ "") :
    (resourceNsxtSpoofGuardSwitchingProfileUpdate h m d).err = none ↔
      ((m.UpdateSpoofGuardSwitchingProfile d.id (spoofGuardUpdatePayload h d)).2.2 = none
        ∧ (m.UpdateSpoofGuardSwitchingProfile d.id (spoofGuardUpdatePayload h d)).2.1.StatusCode
            ≠ StatusNotFound
        ∧ (resourceNsxtSpoofGuardSwitchingProfileRead h m d).err = none) := by
  unfold resourceNsxtSpoofGuardSwitchingProfileUpdate
  rcases hx : m.UpdateSpoofGuardSwitchingProfile d.id (spoofGuardUpdatePayload h d)
    with ⟨o, resp, err⟩
  simp only [hid, hx, if_false]
  split_ifs with hc
  · simp only [reduceCtorEq, false_iff, not_and]
    intro he hs
    rcases hc with hc | hc
    · exact absurd he hc
    · exact absurd hc hs
  · simp only [not_or, not_not] at hc
    simp [hc.1, hc.2]

/-- Claim C9 fails for the SpoofGuard profile: with revision 5 in the state, the
payload that `resourceNsxtSpoofGuardSwitchingProfileUpdate` passes to the remote
Update call carries revision 0, while `resourceNsxtDhcpRelayProfileUpdate` on a
state with the same revision passes 5. -/
theorem C9_spoofguard_update_sends_revision_zero :
    guardState.revision = some 5
    ∧ (resourceNsxtSpoofGuardSwitchingProfileUpdate plainHelpers (constClient 200 [])
        guardState).trace
        = [.UpdateSpoofGuardSwitchingProfile "p1"
            { Revision := 0, Description := "guard", DisplayName := "spoof-guard",
              Tags := [⟨"dev", "blue"⟩], WhiteListProviders := ["LPORT_BINDINGS"] },
           .GetSpoofGuardSwitchingProfile "p1"]
    ∧ relayState.revision = some 5
    ∧ (resourceNsxtDhcpRelayProfileUpdate plainHelpers (constClient 200 []) relayState).trace
        = [.UpdateDhcpRelayProfile "p1"
            { Revision := 5, Description := "relay", DisplayName := "dhcp-relay",
              Tags := [⟨"dev", "blue"⟩], ServerAddresses := ["10.0.0.1"] },
           .ReadDhcpRelayProfile "p1"] := by
  refine ⟨rfl, by decide, rfl, by decide⟩

/-- Claim C10 as stated fails: on a state with id `p1` and no revision, against a
controller that answers 200, both Update operations make the remote Update call
and return no error. -/
theorem C10_update_without_revision_calls_remote :
    ({ relayState with revision := none } : DhcpRelayData).revision = none
    ∧ (resourceNsxtDhcpRelayProfileUpdate plainHelpers (constClient 200 [])
        { relayState with revision := none }).err = none
    ∧ (resourceNsxtDhcpRelayProfileUpdate plainHelpers (constClient 200 [])
        { relayState with revision := none }).trace
        = [.UpdateDhcpRelayProfile "p1"
            { Revision := 0, Description := "relay", DisplayName := "dhcp-relay",
              Tags := [⟨"dev", "blue"⟩], ServerAddresses := ["10.0.0.1"] },
           .ReadDhcpRelayProfile "p1"]
    ∧ (resourceNsxtSpoofGuardSwitchingProfileUpdate plainHelpers (constClient 200 [])
        { guardState with revision := none }).err = none
    ∧ (resourceNsxtSpoofGuardSwitchingProfileUpdate plainHelpers (constClient 200 [])
        { guardState with revision := none }).trace.head?
        = some (.UpdateSpoofGuardSwitchingProfile "p1"
            (spoofGuardUpdatePayload plainHelpers { guardState with revision := none })) := by
  refine ⟨rfl, by decide, by decide, by decide, by decide⟩

/-- Claim C10, amended: for every state with a non-empty id and no revision, both
Update operations do make the remote Update call, as their first event, the DHCP
relay payload carrying revision 0 (what an unset revision reads as); each
returns an error exactly when that call reports a transport error or status 404,
or when the read that follows returns an error. -/
theorem C10_update_without_revision (h : Helpers) (m : APIClient)
    (d1 : DhcpRelayData) (d2 : SpoofGuardData)
    (hid1 : d1.id ≠ "") (hrev1 : d1.revision = none)
    (hid2 : d2.id ≠ "") (_hrev2 : d2.revision = none) :
    ((resourceNsxtDhcpRelayProfileUpdate h m d1).trace.head?
        = some (.UpdateDhcpRelayProfile d1.id (dhcpRelayUpdatePayload h d1))
      ∧ (dhcpRelayUpdatePayload h d1).Revision = 0
      ∧ ((resourceNsxtDhcpRelayProfileUpdate h m d1).err = none ↔
          ((m.UpdateDhcpRelayProfile d1.id (dhcpRelayUpdatePayload h d1)).2.2 = none
            ∧ (m.UpdateDhcpRelayProfile d1.id (dhcpRelayUpdatePayload h d1)).2.1.StatusCode
                ≠ StatusNotFound
            ∧ (resourceNsxtDhcpRelayProfileRead h m d1).err = none)))
    ∧ ((∃ p, (resourceNsxtSpoofGuardSwitchingProfileUpdate h m d2).trace.head?
          = some (.UpdateSpoofGuardSwitchingProfile d2.id p))
      ∧ ((resourceNsxtSpoofGuardSwitchingProfileUpdate h m d2).err = none ↔
          ((m.UpdateSpoofGuardSwitchingProfile d2.id (spoofGuardUpdatePayload h d2)).2.2 = none
            ∧ (m.UpdateSpoofGuardSwitchingProfile d2.id
                (spoofGuardUpdatePayload h d2)).2.1.StatusCode ≠ StatusNotFound
            ∧ (resourceNsxtSpoofGuardSwitchingProfileRead h m d2).err = none))) := by
  refine ⟨⟨dhcpRelayUpdate_first_event h m d1 hid1, ?_, dhcpRelayUpdate_ok_iff h m d1 hid1⟩,
    ⟨⟨_, spoofGuardUpdate_first_event h m d2 hid2⟩, spoofGuardUpdate_ok_iff h m d2 hid2⟩⟩
  rw [dhcpRelayUpdatePayload_revision, hrev1]
  rfl

/-- Claim C10 amended, an instance: the state `p1` without revision sends the
remote Update call with revision 0. -/
theorem C10_update_without_revision_witness :
    (resourceNsxtDhcpRelayProfileUpdate plainHelpers (constClient 200 [])
        { relayState with revision := none }).trace.head?
      = some (.UpdateDhcpRelayProfile "p1"
          (dhcpRelayUpdatePayload plainHelpers { relayState with revision := none }))
    ∧ (dhcpRelayUpdatePayload plainHelpers { relayState with revision := none }).Revision = 0 :=
  have w := C10_update_without_revision plainHelpers (constClient 200 [])
    { relayState with revision := none } { guardState with revision := none }
    (by decide) rfl (by decide) rfl
  ⟨w.1.1, w.1.2.1⟩

end Nsxt
